import Mathlib

/-!
Verification of the telegram-forwarder ingest-to-dispatch pipeline.

Shallow embedding of the core modules (`correlation.py`, `authority.py`,
`pipeline.py`, `db.py`, `sender.py`, `ai.py`) of the repository.  Text is
modelled as lists of Unicode code points (`List Nat`); machine reals are
modelled as `Rat`; SQLite tables as Lean lists; the wall clock as an
explicit `Rat` timestamp passed into each step.  Library calls that the
source makes (`hashlib.sha1`, UTF-8 encoding, `unicodedata.normalize("NFC", ·)`)
are implemented below; the NFC model performs canonical decomposition,
canonical reordering and canonical composition, and is exact on the
ASCII/Hebrew/Arabic alphabet declared at `nfcArabic`.
-/

/-- Code points of a Lean string (models a Python `str` as a sequence of
Unicode code points). -/
def codepoints (s : String) : List Nat :=
  s.data.map Char.toNat

/-- Arabic tashkeel diacritics stripped by `correlation._ARABIC_DIACRITICS`:
U+0610-U+061A, U+064B-U+065F, U+0670. -/
def isTashkeel (c : Nat) : Bool :=
  (0x610 ≤ c && c ≤ 0x61A) || (0x64B ≤ c && c ≤ 0x65F) || c == 0x670

/-- Model of Python `str.isdigit` on the decimal-digit ranges that occur in
this development: ASCII `0-9`, Arabic-Indic U+0660-U+0669 and extended
Arabic-Indic U+06F0-U+06F9.  (Python's predicate also accepts other Unicode
digit characters; on the alphabets used in the theorems below the two
agree.) -/
def isPyDigit (c : Nat) : Bool :=
  (0x30 ≤ c && c ≤ 0x39) || (0x660 ≤ c && c ≤ 0x669) || (0x6F0 ≤ c && c ≤ 0x6F9)

/-- Model of Python `str.lower` on one code point: ASCII letters are
lowered, everything else (Arabic, Hebrew, digits, punctuation) is
unchanged.  (Python also lowers cased letters of other scripts; the source
texts here are Arabic/Hebrew/ASCII, where the two agree.) -/
def lowerCp (c : Nat) : Nat :=
  if 65 ≤ c && c ≤ 90 then c + 32 else c

/-- Source `text.lower()` over a code-point list. -/
def lowerCps (l : List Nat) : List Nat :=
  l.map lowerCp

/-- Source `_ARABIC_DIACRITICS.sub("", text)`. -/
def stripTashkeel (l : List Nat) : List Nat :=
  l.filter (fun c => !isTashkeel c)

/-- Source `"".join(ch for ch in text if not ch.isdigit())`. -/
def removeDigits (l : List Nat) : List Nat :=
  l.filter (fun c => !isPyDigit c)

/-- Stable insertion into a sorted list: the new element goes before the
first element it is `le`-related to, hence after earlier equal elements. -/
def insertSorted (le : α → α → Bool) (x : α) : List α → List α
  | [] => [x]
  | y :: ys => if le x y then x :: y :: ys else y :: insertSorted le x ys

/-- Stable sort (models Python `sorted`, SQLite `ORDER BY`, and the
Canonical Ordering Algorithm below). -/
def sortBy (le : α → α → Bool) : List α → List α
  | [] => []
  | x :: xs => insertSorted le x (sortBy le xs)

/-- Canonical composition pairs (primary composites) of the Arabic block,
from UnicodeData: U+0622..U+0626 canonically decompose to a base letter
followed by U+0653/U+0654/U+0655.  These are the only primary composites
whose parts lie in the alphabet declared at `nfcArabic`. -/
def composeArabic (a b : Nat) : Option Nat :=
  if a == 0x627 && b == 0x653 then some 0x622
  else if a == 0x627 && b == 0x654 then some 0x623
  else if a == 0x648 && b == 0x654 then some 0x624
  else if a == 0x627 && b == 0x655 then some 0x625
  else if a == 0x64A && b == 0x654 then some 0x626
  else none

/-- Canonical combining class (UnicodeData column 3) of every code point of
the alphabet declared at `nfcArabic`; all its nonzero-class characters are
the Arabic marks U+0610-U+061A, U+064B-U+065F and U+0670. -/
def cccArabic (c : Nat) : Nat :=
  if 0x610 ≤ c && c ≤ 0x617 then 230
  else if c == 0x618 then 30
  else if c == 0x619 then 31
  else if c == 0x61A then 32
  else if 0x64B ≤ c && c ≤ 0x652 then c - 0x64B + 27
  else if c == 0x653 || c == 0x654 then 230
  else if c == 0x655 || c == 0x656 then 220
  else if 0x657 ≤ c && c ≤ 0x65B then 230
  else if c == 0x65C then 220
  else if c == 0x65D || c == 0x65E then 230
  else if c == 0x65F then 220
  else if c == 0x670 then 35
  else 0

/-- Canonical decomposition of one code point of the declared alphabet
(U+0622..U+0626 are its only decomposable characters; one level
suffices, the parts decompose no further). -/
def decomposeArabic (c : Nat) : List Nat :=
  if c == 0x622 then [0x627, 0x653]
  else if c == 0x623 then [0x627, 0x654]
  else if c == 0x624 then [0x648, 0x654]
  else if c == 0x625 then [0x627, 0x655]
  else if c == 0x626 then [0x64A, 0x654]
  else [c]

/-- Canonical decomposition (NFD) over the declared alphabet. -/
def nfdArabic (l : List Nat) : List Nat :=
  l.flatMap decomposeArabic

/-- Fuel-driven worker for `canonicalReorder` (the fuel starts at the
length of the list and never runs out: each step consumes at least one
character). -/
def reorderAux : Nat → List Nat → List Nat
  | 0, l => l
  | _, [] => []
  | fuel + 1, c :: rest =>
    if cccArabic c == 0 then c :: reorderAux fuel rest
    else
      sortBy (fun a b => cccArabic a ≤ cccArabic b)
          ((c :: rest).takeWhile (fun x => cccArabic x != 0)) ++
        reorderAux fuel ((c :: rest).dropWhile (fun x => cccArabic x != 0))

/-- Canonical Ordering Algorithm: stable-sort every maximal run of
nonzero-combining-class characters by combining class (only strictly
out-of-order pairs are swapped, so the stable sort matches it). -/
def canonicalReorder (l : List Nat) : List Nat :=
  reorderAux l.length l

/-- Canonical composition of one starter `L` with the run of combining
marks that follows it, per the UAX 15 algorithm: a mark combines with the
current starter when no uncombined mark since the starter has a combining
class at least as large (`lastcc` tracks the last uncombined mark's class,
0 when there is none); a mark that cannot combine is emitted and raises
`lastcc`.  Returns the final starter and the uncombined marks in order. -/
def composeMarks : Nat → Nat → List Nat → Nat × List Nat
  | L, _, [] => (L, [])
  | L, lastcc, m :: ms =>
    match composeArabic L m with
    | some L' =>
      if lastcc < cccArabic m then composeMarks L' lastcc ms
      else
        let r := composeMarks L (cccArabic m) ms
        (r.1, m :: r.2)
    | none =>
      let r := composeMarks L (cccArabic m) ms
      (r.1, m :: r.2)

/-- Fuel-driven worker applying `composeMarks` at every starter of a
canonically ordered sequence (leading marks with no starter pass
through). -/
def nfcScanAux : Nat → List Nat → List Nat
  | 0, l => l
  | _, [] => []
  | fuel + 1, c :: rest =>
    if cccArabic c == 0 then
      let r := composeMarks c 0 (rest.takeWhile (fun x => cccArabic x != 0))
      r.1 :: r.2 ++ nfcScanAux fuel (rest.dropWhile (fun x => cccArabic x != 0))
    else c :: nfcScanAux fuel rest

/-- Model of `unicodedata.normalize("NFC", text)`: canonical decomposition,
canonical reordering by combining class, then canonical composition with
the UAX 15 blocking rule (a starter also combines with a non-adjacent mark
when every intervening mark has a strictly smaller combining class).  The
model is exact on the alphabet U+0000-U+007F (ASCII), U+05D0-U+05EA
(Hebrew letters) and U+0600-U+0671 (Arabic letters, marks, digits and
punctuation): within it, the decomposable characters are exactly
U+0622-U+0626, the primary composites are exactly the `composeArabic`
pairs, and the nonzero combining classes are exactly those of
`cccArabic`. -/
def nfcArabic (l : List Nat) : List Nat :=
  nfcScanAux (canonicalReorder (nfdArabic l)).length
    (canonicalReorder (nfdArabic l))

/- ───── UTF-8 and SHA-1 (models of `str.encode()` and `hashlib.sha1`) ──── -/

/-- UTF-8 encoding of one code point. -/
def utf8Cp (c : Nat) : List Nat :=
  if c < 0x80 then [c]
  else if c < 0x800 then [0xC0 + c / 64, 0x80 + c % 64]
  else if c < 0x10000 then [0xE0 + c / 4096, 0x80 + c / 64 % 64, 0x80 + c % 64]
  else [0xF0 + c / 262144, 0x80 + c / 4096 % 64, 0x80 + c / 64 % 64, 0x80 + c % 64]

/-- UTF-8 encoding of a code-point sequence (Python `str.encode()`). -/
def utf8Encode (l : List Nat) : List Nat :=
  l.flatMap utf8Cp

/-- Left rotation by `n` bits in 32-bit space (values are `Nat`s kept
below `2^32`). -/
def rotl32 (x n : Nat) : Nat :=
  ((x <<< n) ||| (x >>> (32 - n))) % 4294967296

/-- Big-endian byte serialization, `n` bytes. -/
def toBytesBE : Nat → Nat → List Nat
  | 0, _ => []
  | n + 1, x => toBytesBE n (x / 256) ++ [x % 256]

/-- SHA-1 padding: append `0x80`, zero bytes to 56 mod 64, then the 64-bit
big-endian bit length. -/
def sha1Pad (msg : List Nat) : List Nat :=
  let padZeros := (119 - msg.length % 64) % 64
  msg ++ [0x80] ++ List.replicate padZeros 0 ++ toBytesBE 8 (msg.length * 8)

/-- Group bytes into 32-bit big-endian words. -/
def bytesToWords : List Nat → List Nat
  | a :: b :: c :: d :: rest => (((a * 256 + b) * 256 + c) * 256 + d) :: bytesToWords rest
  | _ => []

/-- Fuel-driven worker for `chunks64`. -/
def chunks64Aux : Nat → List Nat → List (List Nat)
  | 0, _ => []
  | _, [] => []
  | fuel + 1, x :: xs => (x :: xs).take 64 :: chunks64Aux fuel ((x :: xs).drop 64)

/-- Split a byte list into 64-byte blocks. -/
def chunks64 (l : List Nat) : List (List Nat) :=
  chunks64Aux l.length l

/-- One step of the SHA-1 message-schedule extension. -/
def sha1ExtendStep (ws : List Nat) : List Nat :=
  let n := ws.length
  ws ++ [rotl32 ((ws.getD (n - 3) 0) ^^^ (ws.getD (n - 8) 0) ^^^
                 (ws.getD (n - 14) 0) ^^^ (ws.getD (n - 16) 0)) 1]

/-- Iterate a function `n` times. -/
def iterN (f : α → α) : Nat → α → α
  | 0, a => a
  | n + 1, a => iterN f n (f a)

/-- SHA-1 round function. -/
def sha1Round (i : Nat) (st : Nat × Nat × Nat × Nat × Nat) (w : Nat) :
    Nat × Nat × Nat × Nat × Nat :=
  let a := st.1; let b := st.2.1; let c := st.2.2.1; let d := st.2.2.2.1; let e := st.2.2.2.2
  let f :=
    if i < 20 then (b &&& c) ||| ((4294967295 ^^^ b) &&& d)
    else if i < 40 then b ^^^ c ^^^ d
    else if i < 60 then (b &&& c) ||| (b &&& d) ||| (c &&& d)
    else b ^^^ c ^^^ d
  let k :=
    if i < 20 then 0x5A827999
    else if i < 40 then 0x6ED9EBA1
    else if i < 60 then 0x8F1BBCDC
    else 0xCA62C1D6
  let temp := (rotl32 a 5 + f + e + k + w) % 4294967296
  (temp, a, rotl32 b 30, c, d)

/-- Process one 64-byte block on the running hash state. -/
def sha1Block (h : Nat × Nat × Nat × Nat × Nat) (block : List Nat) :
    Nat × Nat × Nat × Nat × Nat :=
  let ws := iterN sha1ExtendStep 64 (bytesToWords block)
  let st := (List.range 80).foldl (fun st i => sha1Round i st (ws.getD i 0)) h
  ((h.1 + st.1) % 4294967296,
   (h.2.1 + st.2.1) % 4294967296,
   (h.2.2.1 + st.2.2.1) % 4294967296,
   (h.2.2.2.1 + st.2.2.2.1) % 4294967296,
   (h.2.2.2.2 + st.2.2.2.2) % 4294967296)

/-- Lower-case hex character of a value below 16. -/
def hexChar (n : Nat) : Char :=
  if n < 10 then Char.ofNat (48 + n) else Char.ofNat (87 + n)

/-- Lower-case hex string of a byte list. -/
def bytesToHex (l : List Nat) : String :=
  ⟨l.flatMap (fun b => [hexChar (b / 16), hexChar (b % 16)])⟩

/-- SHA-1 digest of a byte list, as the 40-character lower-case hex string
returned by Python's `hashlib.sha1(...).hexdigest()`. -/
def sha1Hex (msg : List Nat) : String :=
  let h :=
    (chunks64 (sha1Pad msg)).foldl sha1Block
      (0x67452301, 0xEFCDAB89, 0x98BADCFE, 0x10325476, 0xC3D2E1F0)
  bytesToHex (toBytesBE 4 h.1 ++ toBytesBE 4 h.2.1 ++ toBytesBE 4 h.2.2.1 ++
              toBytesBE 4 h.2.2.2.1 ++ toBytesBE 4 h.2.2.2.2)

/-- Source `sha1(text.encode()).hexdigest()` for a string, as used by
`Pipeline.process` and `sender._is_sent`. -/
def textSha1 (s : String) : String :=
  sha1Hex (utf8Encode (codepoints s))

/- ───── correlation.py ──────────────────────────────────────────────────── -/

/-- Source `correlation.URGENT_KW`: Arabic and Hebrew urgent keywords. -/
def URGENT_KW : List String :=
  ["عاجل", "انفجار", "انفجارات", "اشتباك", "هجوم", "غارة",
   "قتلى", "مقتل", "إصابة", "ازدحام", "قطع طرق", "أزمة سير",
   "احتجاج", "إغلاق", "زحمة", "طوارئ", "حرائق", "حريق", "صاروخ", "درون",
   "דחוף", "פיגוע", "ירי", "רקטה", "רקטות", "חיסול", "פיצוץ",
   "אירוע ביטחוני", "חדירה", "עימות", "הרוגים", "פצועים", "התקפה"]

/-- Does `small` occur at the start of `big`? -/
def startsWithCp : List Nat → List Nat → Bool
  | [], _ => true
  | _ :: _, [] => false
  | a :: as, b :: bs => a == b && startsWithCp as bs

/-- Substring containment on code points (Python `needle in haystack`). -/
def containsCp (needle : List Nat) : List Nat → Bool
  | [] => needle.isEmpty
  | b :: bs => startsWithCp needle (b :: bs) || containsCp needle bs

/-- Source `correlation.looks_urgent`: any urgent keyword occurs in the lowered
text, or one of the emoji markers occurs in the raw text. -/
def looks_urgent (text : String) : Bool :=
  let low := lowerCps (codepoints text)
  URGENT_KW.any (fun k => containsCp (codepoints k) low) ||
    ["🚨", "🔴"].any (fun s => containsCp (codepoints s) (codepoints text))

/-- Source `correlation.sha1_event_key`: NFC-normalize, strip tashkeel, lower-case
and drop digit characters, truncate to 120 code points, UTF-8 encode and
SHA-1. -/
def sha1_event_key (text : List Nat) : String :=
  let t := nfcArabic text
  let t := stripTashkeel t
  let cleaned := removeDigits (lowerCps t)
  sha1Hex (utf8Encode (cleaned.take 120))

/-- Source `models.EventSignature` (immutable structured extract of a message). -/
structure EventSignature where
  location : Option String := none
  region : Option String := none
  event_type : String := "other"
  entities : List String := []
  keywords : List String := []
  is_urgent : Bool := false
deriving Repr, DecidableEq

/-- Python truthiness of an optional string (`None` and `""` are falsy). -/
def strTruthy : Option String → Bool
  | none => false
  | some s => s ≠ ""

/-- Source `correlation._norm`: strip surrounding whitespace and lower-case.
Whitespace stripping is modelled on the ASCII space characters produced by
the fan-in normalization (which collapses all whitespace to `' '`). -/
def normStr (s : String) : String :=
  ⟨lowerCps ((codepoints s).dropWhile (· == 32) |>.reverse.dropWhile (· == 32)
    |>.reverse) |>.map Char.ofNat⟩

/-- Source `correlation.signatures_match`: weighted similarity of two signatures,
capped at 1.0. -/
def signatures_match (a b : EventSignature) : Rat :=
  let score : Rat := 0
  let score :=
    if strTruthy a.location && strTruthy b.location then
      if normStr (a.location.getD "") == normStr (b.location.getD "") then
        score + 0.5
      else if strTruthy a.region && strTruthy b.region &&
          (normStr (a.region.getD "") == normStr (b.region.getD "")) then
        score + 0.2
      else score
    else if strTruthy a.region && strTruthy b.region &&
        (normStr (a.region.getD "") == normStr (b.region.getD "")) then
      score + 0.2
    else score
  let score :=
    if a.event_type == b.event_type && a.event_type != "other" then score + 0.3
    else score
  let ea := ((a.entities.map normStr).foldl (fun acc c => if c ∈ acc then acc else acc ++ [c]) [])
  let eb := ((b.entities.map normStr).foldl (fun acc c => if c ∈ acc then acc else acc ++ [c]) [])
  let score :=
    if !ea.isEmpty && !eb.isEmpty then
      let inter := (ea.filter (· ∈ eb)).length
      let union := (ea ++ eb.filter (· ∉ ea)).length
      score + 0.2 * ((inter : Rat) / (union : Rat))
    else score
  min score 1

set_option maxRecDepth 8192

/- ───── Data model (models.py, db.py schema) ────────────────────────────── -/

/-- Source `models.MessageInfo`: a normalized ingested message. -/
structure MessageInfo where
  text : String
  link : String
  channel : String
  channel_type : String := "arab"
  timestamp : Rat := 0
deriving Repr, DecidableEq

/-- Source `models.AggEvent`: an in-memory aggregated event.  `channels` models the
Python `set` together with its (hash-determined, arbitrary) iteration
order; it never holds duplicates. -/
structure AggEvent where
  event_id : String
  signature : EventSignature
  texts : List String := []
  channels : List String := []
  channel_types : List (String × String) := []
  links : List String := []
  first_ts : Rat := 0
  sent : Bool := false
deriving Repr, DecidableEq

/-- Status column of the `events` table. -/
inductive EventStatus where
  | pending
  | sent
  | expired
deriving Repr, DecidableEq

/-- A row of the `events` table. -/
structure DbEventRow where
  event_id : String
  signature : EventSignature
  first_seen : Rat
  last_updated : Rat
  source_count : Nat := 1
  status : EventStatus := .pending
deriving Repr, DecidableEq

/-- A row of the `event_sources` table (composite primary key
`(event_id, channel)`). -/
structure DbSourceRow where
  event_id : String
  channel : String
  reported_at : Rat
  raw_text : String
  link : String
deriving Repr, DecidableEq

/-- The Durable Store: `events`, `event_sources` and `dedup_cache` tables
(each list in insertion order). -/
structure DbState where
  events : List DbEventRow := []
  sources : List DbSourceRow := []
  dedup : List String := []
deriving Repr, DecidableEq

/-- Environment-driven configuration (`config.py` is read from the
environment; every recognized option that the embedded modules use is a
field here). -/
structure Config where
  batchSize : Nat := 10
  highThreshold : Rat := 75
  matchThreshold : Rat := 0.6
  minSources : Nat := 2
  mergeWindow : Rat := 600
  budgetHourly : Nat := 120
  arabDefault : Rat := 50
  smartDefault : Rat := 55
deriving Repr, DecidableEq

/- ───── Small container helpers ─────────────────────────────────────────── -/

/-- Python `dict` assignment `d[k] = v`: overwrite if the key is present,
else append (dicts preserve insertion order). -/
def dictInsert (l : List (String × α)) (k : String) (v : α) : List (String × α) :=
  if l.any (fun p => p.1 == k) then
    l.map (fun p => if p.1 == k then (k, v) else p)
  else l ++ [(k, v)]

/-- Python `set` built from a list: first occurrence of each element is
kept (membership is what the theorems use; real `set` iteration order is
hash-determined). -/
def setOfList (l : List String) : List String :=
  l.foldl (fun acc c => if c ∈ acc then acc else acc ++ [c]) []

/-- Source `collections.deque(maxlen = n)` push: append right, dropping from the
left once the length exceeds `n`. -/
def pushBounded (n : Nat) (l : List String) (x : String) : List String :=
  let l := l ++ [x]
  if n < l.length then l.drop (l.length - n) else l

/- ───── db.py operations ────────────────────────────────────────────────── -/

/-- Does an `event_sources` row with this primary key exist? -/
def sourceExists (db : DbState) (eid channel : String) : Bool :=
  db.sources.any (fun r => r.event_id == eid && r.channel == channel)

/-- Source `Database.record_event`: insert the event row plus its initial source
row (`INSERT OR IGNORE` on the composite key). -/
def record_event (db : DbState) (eid : String) (sig : EventSignature)
    (channel text link : String) (now : Rat) : DbState :=
  let db := { db with events := db.events ++
    [{ event_id := eid, signature := sig, first_seen := now, last_updated := now }] }
  if sourceExists db eid channel then db
  else { db with sources := db.sources ++
    [{ event_id := eid, channel := channel, reported_at := now,
       raw_text := ⟨text.data.take 2000⟩, link := link }] }

/-- Source `Database.add_event_source`: `INSERT OR IGNORE` the source row, then
unconditionally bump `source_count` and `last_updated`. -/
def add_event_source (db : DbState) (eid channel text link : String)
    (now : Rat) : DbState :=
  let db :=
    if sourceExists db eid channel then db
    else { db with sources := db.sources ++
      [{ event_id := eid, channel := channel, reported_at := now,
         raw_text := ⟨text.data.take 2000⟩, link := link }] }
  { db with events := db.events.map (fun r =>
      if r.event_id == eid then
        { r with source_count := r.source_count + 1, last_updated := now }
      else r) }

/-- Source `Database.mark_event_sent`. -/
def mark_event_sent (db : DbState) (eid : String) : DbState :=
  { db with events := db.events.map (fun r =>
      if r.event_id == eid then { r with status := .sent } else r) }

/-- Source `Database.mark_event_expired`. -/
def mark_event_expired (db : DbState) (eid : String) : DbState :=
  { db with events := db.events.map (fun r =>
      if r.event_id == eid then { r with status := .expired } else r) }

/-- Source `Database.get_pending_events` (the full pending rows; the Python code
projects out id, signature, first_seen and source_count). -/
def get_pending_events (db : DbState) : List DbEventRow :=
  db.events.filter (fun r => r.status == .pending)

/-- Source `Database.get_event_sources`: rows of one event, `ORDER BY reported_at`. -/
def get_event_sources (db : DbState) (eid : String) : List DbSourceRow :=
  sortBy (fun a b => a.reported_at ≤ b.reported_at)
    (db.sources.filter (fun r => r.event_id == eid))

/-- Source `Database.is_dup`: membership test that inserts the key on a miss.
Returns the answer together with the updated store. -/
def is_dup (db : DbState) (h : String) : Bool × DbState :=
  if h ∈ db.dedup then (true, db)
  else (false, { db with dedup := db.dedup ++ [h] })

/- ───── authority.py ────────────────────────────────────────────────────── -/

/-- Score bounds and adjustment constants of `authority.py`. -/
def MAX_SCORE : Rat := 95
def MIN_SCORE : Rat := 10
def CORROBORATION_BOOST : Rat := 2
def FIRST_TO_REPORT_BOOST : Rat := 3
def UNCORROBORATED_URGENT_PENALTY : Rat := -1.5
def DECAY_RATE : Rat := 0.01

/-- In-memory state of `AuthorityTracker`: the score cache and the
per-channel class baselines. -/
structure AuthState where
  cache : List (String × Rat) := []
  defaults : List (String × Rat) := []
deriving Repr, DecidableEq

/-- Source `AuthorityTracker.get_score`: cached score, else the arab default. -/
def get_score (cfg : Config) (auth : AuthState) (channel : String) : Rat :=
  (auth.cache.lookup channel).getD cfg.arabDefault

/-- Source `AuthorityTracker.get_label`. -/
def get_label (score : Rat) : String :=
  if 80 ≤ score then "גבוהה"
  else if 60 ≤ score then "בינונית"
  else "נמוכה"

/-- Source `AuthorityTracker._adjust`: clamp `current + delta` into
`[MIN_SCORE, MAX_SCORE]` and write it back to the cache (the same value is
persisted through `Database.update_authority`). -/
def authority_adjust (cfg : Config) (auth : AuthState) (channel : String)
    (delta : Rat) : AuthState :=
  let current := get_score cfg auth channel
  let new_score := max MIN_SCORE (min MAX_SCORE (current + delta))
  { auth with cache := dictInsert auth.cache channel new_score }

/-- Source `AuthorityTracker.on_event_corroborated`: boost every contributor, then
give the first-to-report bonus to the head of
`sorted(event.channels, key=lambda c: event.first_ts)` — a sort whose key
is the same constant for every channel, so the stable sort returns the
set-iteration order unchanged. -/
def on_event_corroborated (cfg : Config) (auth : AuthState) (ev : AggEvent) :
    AuthState :=
  let sorted_channels := sortBy (fun _ _ => ev.first_ts ≤ ev.first_ts) ev.channels
  let first_channel := sorted_channels.head?
  let auth := ev.channels.foldl
    (fun a ch => authority_adjust cfg a ch CORROBORATION_BOOST) auth
  match first_channel with
  | some ch => authority_adjust cfg auth ch FIRST_TO_REPORT_BOOST
  | none => auth

/-- Source `AuthorityTracker.on_event_expired_uncorroborated`. -/
def on_event_expired_uncorroborated (cfg : Config) (auth : AuthState)
    (ev : AggEvent) : AuthState :=
  if ev.signature.is_urgent && ev.channels.length == 1 then
    match ev.channels.head? with
    | some ch => authority_adjust cfg auth ch UNCORROBORATED_URGENT_PENALTY
    | none => auth
  else auth

/-- Source `AuthorityTracker.apply_decay`: regress every cached score toward its
class baseline by `DECAY_RATE`, clamped; entries moving by at most `0.01`
are left untouched. -/
def apply_decay (cfg : Config) (auth : AuthState) : AuthState :=
  { auth with cache := auth.cache.map (fun p =>
      let baseline := (auth.defaults.lookup p.1).getD cfg.arabDefault
      let new_score :=
        max MIN_SCORE (min MAX_SCORE (p.2 - (p.2 - baseline) * DECAY_RATE))
      if 0.01 < |new_score - p.2| then (p.1, new_score) else p) }

/-- The channel of the earliest source row by `reported_at` — the
specification's definition of the first-to-report channel of an event. -/
def earliest_reporter (rows : List DbSourceRow) : Option String :=
  ((sortBy (fun a b => a.reported_at ≤ b.reported_at) rows).head?).map
    (fun r => r.channel)

/- ───── ai.py (budget/limits; network and JSON parsing as an oracle) ────── -/

/-- Mutable state of `AIClient`: the hourly budget counter and its reset
timestamp.  `networkCalls` instruments how many HTTP requests have been
issued (the body of the `async with` block in `AIClient._call`). -/
structure AIState where
  callsUsed : Nat := 0
  budgetResetTs : Rat := 0
  networkCalls : Nat := 0
deriving Repr, DecidableEq

/-- Source `AIClient._charge`: reset the counter on an hour boundary, then either
refuse (budget exhausted) or consume one call. -/
def ai_charge (cfg : Config) (now : Rat) (st : AIState) : Bool × AIState :=
  let st := if 3600 ≤ now - st.budgetResetTs then
      { st with callsUsed := 0, budgetResetTs := now }
    else st
  if cfg.budgetHourly ≤ st.callsUsed then (false, st)
  else (true, { st with callsUsed := st.callsUsed + 1 })

/-- Source `AIClient.extract_signature` for the prompt `EXTRACT_PROMPT + text[:1500]`.
The oracle stands for the HTTP POST plus tolerant JSON parsing: it returns
the parsed signature, or `none` for transport errors, parse failures and
signatures whose `event_type` is `"irrelevant"` — every path of the source
that yields `None` after a network attempt.  When `_charge` refuses, the
call returns `none` without touching the network. -/
def extract_signature (cfg : Config) (oracle : String → Option EventSignature)
    (now : Rat) (st : AIState) (text : String) :
    Option EventSignature × AIState :=
  let (ok, st) := ai_charge cfg now st
  if ok then
    (oracle ⟨text.data.take 1500⟩, { st with networkCalls := st.networkCalls + 1 })
  else (none, st)

/-- Source `AIClient.summarize_trend` (same budget gate; the empty string is what
`_call` returns both on refusal and on transport failure). -/
def summarize_trend (cfg : Config) (oracle : String → String) (now : Rat)
    (st : AIState) (text ctx : String) : String × AIState :=
  let (ok, st) := ai_charge cfg now st
  if ok then
    (oracle (ctx ++ "\n" ++ (⟨text.data.take 800⟩ : String)),
     { st with networkCalls := st.networkCalls + 1 })
  else ("", st)

/- ───── correlation.py: EventPool ───────────────────────────────────────── -/

/-- Source `EventPool` state: the active map (a Python dict, in insertion order)
and the SHA-1 fingerprint index. -/
structure PoolState where
  active : List (String × AggEvent) := []
  sha1Index : List (String × String) := []
deriving Repr, DecidableEq

/-- The fresh pool built by `EventPool.__init__` at startup. -/
def emptyPool : PoolState := {}

/-- Source `EventPool.sha1_match`: look the text's fingerprint up in the index. -/
def sha1_match (pool : PoolState) (text : String) : Option String :=
  pool.sha1Index.lookup (sha1_event_key (codepoints text))

/-- Source `EventPool.expire`: drop the event from `active` and scrub its index
entries. -/
def pool_expire (pool : PoolState) (eid : String) : PoolState :=
  { active := pool.active.filter (fun p => p.1 != eid),
    sha1Index := pool.sha1Index.filter (fun p => p.2 != eid) }

/-- Best-scoring active event against a fresh signature (`ingest_with_signature`'s
scan; strict improvement, so the first maximum in iteration order wins). -/
def best_match (sig : EventSignature) (active : List (String × AggEvent)) :
    Option String × Rat :=
  active.foldl
    (fun acc p =>
      let s := signatures_match sig p.2.signature
      if acc.2 < s then (some p.1, s) else acc)
    (none, 0)

/-- Merge one message into an existing event (shared body of
`ingest_with_signature` and `ingest_by_sha1`): a channel already present
contributes nothing, otherwise texts/channels/channel_types/links are
updated and a source row is persisted. -/
def merge_into_event (db : DbState) (pool : PoolState) (eid : String)
    (info : MessageInfo) (now : Rat) : DbState × PoolState :=
  match pool.active.lookup eid with
  | none => (db, pool)
  | some ev =>
    if info.channel ∈ ev.channels then (db, pool)
    else
      let ev := { ev with
        texts := ev.texts ++ [info.text],
        channels := ev.channels ++ [info.channel],
        channel_types := dictInsert ev.channel_types info.channel info.channel_type,
        links := if info.link != "" then ev.links ++ [info.link] else ev.links }
      (add_event_source db eid info.channel info.text info.link now,
       { pool with active := dictInsert pool.active eid ev })

/-- Source `EventPool.ingest_with_signature`: match against every active event;
merge on a score at or above the threshold, else create a new event,
index its fingerprint and persist it.  `uuid4` is modelled by a fresh
counter-derived identifier. -/
def ingest_with_signature (cfg : Config) (db : DbState) (pool : PoolState)
    (sig : EventSignature) (info : MessageInfo) (now : Rat) (nextId : Nat) :
    DbState × PoolState × Nat :=
  let bm := best_match sig pool.active
  match bm.1 with
  | some best_id =>
    if cfg.matchThreshold ≤ bm.2 then
      let (db, pool) := merge_into_event db pool best_id info now
      (db, pool, nextId)
    else
      let eid := "ev-" ++ toString nextId
      let ev : AggEvent :=
        { event_id := eid, signature := sig,
          texts := [info.text], channels := [info.channel],
          channel_types := [(info.channel, info.channel_type)],
          links := if info.link != "" then [info.link] else [],
          first_ts := now }
      let pool : PoolState :=
        { active := pool.active ++ [(eid, ev)],
          sha1Index := dictInsert pool.sha1Index (sha1_event_key (codepoints info.text)) eid }
      (record_event db eid sig info.channel info.text info.link now, pool, nextId + 1)
  | none =>
    let eid := "ev-" ++ toString nextId
    let ev : AggEvent :=
      { event_id := eid, signature := sig,
        texts := [info.text], channels := [info.channel],
        channel_types := [(info.channel, info.channel_type)],
        links := if info.link != "" then [info.link] else [],
        first_ts := now }
    let pool : PoolState :=
      { active := pool.active ++ [(eid, ev)],
        sha1Index := dictInsert pool.sha1Index (sha1_event_key (codepoints info.text)) eid }
    (record_event db eid sig info.channel info.text info.link now, pool, nextId + 1)

/-- Source `EventPool.ingest_by_sha1`: merge into the event named by the
fingerprint index. -/
def ingest_by_sha1 (db : DbState) (pool : PoolState) (info : MessageInfo)
    (eid : String) (now : Rat) : DbState × PoolState :=
  merge_into_event db pool eid info now

/-- The restored in-memory event that `EventPool.load_from_db` builds from
one pending row: texts and links keep only truthy column values, channels
are the set of source-row channels, `first_ts` is the persisted
`first_seen`, and `channel_types` is left at its default (the loader does
not reconstruct it). -/
def restored_event (db : DbState) (r : DbEventRow) : AggEvent :=
  let sources := get_event_sources db r.event_id
  { event_id := r.event_id,
    signature := r.signature,
    texts := (sources.filter (fun s => s.raw_text != "")).map (fun s => s.raw_text),
    channels := setOfList (sources.map (fun s => s.channel)),
    links := (sources.filter (fun s => s.link != "")).map (fun s => s.link),
    first_ts := r.first_seen }

/-- Source `EventPool.load_from_db`: insert a restored event into `active` for
every pending row.  The fingerprint index is not touched. -/
def load_from_db (db : DbState) (pool : PoolState) : PoolState :=
  { pool with
    active := (get_pending_events db).foldl
      (fun act r => dictInsert act r.event_id (restored_event db r)) pool.active }

/- ───── sender.py ───────────────────────────────────────────────────────── -/

def BOT_GROUP_LINK : String := "https://t.me/+QlRlin8-CU0yMjZk"

/-- Source `sender._reliability_badge`. -/
def reliability_badge (score : Rat) : String :=
  if 75 ≤ score then "🟢" else if 55 ≤ score then "🟡" else "🔴"

/-- Source `sender._source_badge`. -/
def source_badge (n : Nat) : String :=
  if 3 ≤ n then "✅ מאומת" else if n == 2 then "🔄 חוזר" else "⚠️ מקור בודד"

/-- Code-point order on strings (Python string comparison). -/
def cpLe : List Nat → List Nat → Bool
  | [], _ => true
  | _ :: _, [] => false
  | a :: as, b :: bs => if a < b then true else if b < a then false else cpLe as bs

/-- Source `sorted` on strings by code-point order. -/
def sortStrings (l : List String) : List String :=
  sortBy (fun a b => cpLe (codepoints a) (codepoints b)) l

/-- Source `sender._credit_footer`. -/
def credit_footer (n : Nat) (links channels : List String) : String :=
  let lines :=
    if links != [] then
      ["━━━━━━━━━━━━━━━━━━━━", "📡 מקורות (" ++ toString n ++ "):"] ++
        (links.take 5).map (fun l => "🔗 " ++ l)
    else
      ["━━━━━━━━━━━━━━━━━━━━",
       "📡 מקורות (" ++ toString n ++ "): " ++
         String.intercalate ", "
           (((sortStrings channels).filter (fun c => c != "")).map (fun c => "@" ++ c))]
  String.intercalate "\n" (lines ++ ["📢 הצטרפו לערוץ הדיווחים: " ++ BOT_GROUP_LINK])

/-- Module state of `sender.py`: the bounded `SENT_CACHE` plus the list of
messages handed to `client.send_message` (the sends attempted so far). -/
structure SenderState where
  cache : List String := []
  sentMessages : List String := []
deriving Repr, DecidableEq

/-- Source `sender._is_sent`: membership test on the 16-hex-character fingerprint
of the rendered text, inserting into the bounded cache on a miss. -/
def is_sent (st : SenderState) (text : String) : Bool × SenderState :=
  let h := (textSha1 text).take 16
  if h ∈ st.cache then (true, st)
  else (false, { st with cache := pushBounded 800 st.cache h })

/-- The fully-rendered trend report of `Sender.send_trend_report`. -/
def render_trend_report (cfg : Config) (auth : AuthState) (ev : AggEvent)
    (summary_text : String) : String :=
  let n := ev.channels.length
  let scores := ev.channels.map (get_score cfg auth)
  let avg_score := if scores != [] then scores.sum / (scores.length : Rat) else 50
  let badge := reliability_badge avg_score
  let label := get_label avg_score
  let src_badge := source_badge n
  let types := setOfList (ev.channel_types.map (fun p => p.2))
  let cross_note :=
    if "arab" ∈ types && "smart" ∈ types then
      "\n🔗 אושש גם ע\"י מקורות ישראליים"
    else ""
  let lines :=
    [badge ++ " " ++ src_badge ++ " | אמינות: " ++ label,
     "━━━━━━━━━━━━━━━━━━━━",
     summary_text,
     credit_footer n ev.links ev.channels] ++
    (if cross_note != "" then [cross_note] else [])
  String.intercalate "\n" lines

/-- Source `Sender.send_trend_report`: render, drop silently when the fingerprint
is cached, otherwise attempt the send. -/
def send_trend_report (cfg : Config) (auth : AuthState) (ev : AggEvent)
    (summary_text : String) (st : SenderState) : SenderState :=
  let report := render_trend_report cfg auth ev summary_text
  let (dup, st) := is_sent st report
  if dup then st
  else { st with sentMessages := st.sentMessages ++ [report] }

/-- The fully-rendered body of `Sender.send_single_source_alert`. -/
def render_single_alert (cfg : Config) (auth : AuthState) (ev : AggEvent)
    (summary_text : String) : String :=
  let ch := (ev.channels.head?).getD ""
  let score := get_score cfg auth ch
  String.intercalate "\n"
    [reliability_badge score ++ " ⚠️ מקור בודד | אמינות: " ++ get_label score,
     "━━━━━━━━━━━━━━━━━━━━",
     summary_text,
     credit_footer 1 ev.links ev.channels]

/-- Source `Sender.send_single_source_alert`. -/
def send_single_source_alert (cfg : Config) (auth : AuthState) (ev : AggEvent)
    (summary_text : String) (st : SenderState) : SenderState :=
  let report := render_single_alert cfg auth ev summary_text
  let (dup, st) := is_sent st report
  if dup then st
  else { st with sentMessages := st.sentMessages ++ [report] }

/- ───── pipeline.py ─────────────────────────────────────────────────────── -/

/-- Everything `Pipeline.process`'s routing may modify (the in-memory
dedup cache is deliberately outside: routing never touches it). -/
structure CoreState where
  db : DbState := {}
  pool : PoolState := {}
  batch : List MessageInfo := []
  summaryJobs : List (List MessageInfo) := []
  ai : AIState := {}
  nextId : Nat := 0
deriving Repr, DecidableEq

/-- Full pipeline state: the in-memory short-term dedup deque, the
authority cache (read-only inside `process`) and the message counter. -/
structure PState where
  dupCache : List String := []
  authority : AuthState := {}
  statsMessages : Nat := 0
  core : CoreState := {}
deriving Repr, DecidableEq

/-- Source `Pipeline._batch_push` followed, at `BATCH_SIZE`, by `_flush_batch`:
the collector empties and the flushed batch becomes an asynchronous
summary job (`asyncio.create_task(self._send_summary(msgs))`). -/
def batch_push (cfg : Config) (info : MessageInfo) (core : CoreState) :
    CoreState :=
  let msgs := core.batch ++ [info]
  if cfg.batchSize ≤ msgs.length then
    { core with batch := [], summaryJobs := core.summaryJobs ++ [msgs] }
  else { core with batch := msgs }

/-- Source `Pipeline._high_priority`: AI signature extraction feeding the event
pool, with the urgent fallback to the batch collector. -/
def high_priority (cfg : Config) (oracle : String → Option EventSignature)
    (now : Rat) (info : MessageInfo) (urgent : Bool) (core : CoreState) :
    CoreState :=
  let (sig?, ai) := extract_signature cfg oracle now core.ai info.text
  let core := { core with ai := ai }
  match sig? with
  | some sig =>
    let (db, pool, nextId) :=
      ingest_with_signature cfg core.db core.pool sig info now core.nextId
    { core with db := db, pool := pool, nextId := nextId }
  | none =>
    if urgent then batch_push cfg info core else core

/-- Routing stage of `Pipeline.process` (everything after the two dedup
gates). -/
def route_message (cfg : Config) (oracle : String → Option EventSignature)
    (now : Rat) (info : MessageInfo) (auth : AuthState) (core : CoreState) :
    CoreState :=
  let score := get_score cfg auth info.channel
  let urgent := looks_urgent info.text
  if urgent = true ∨ cfg.highThreshold ≤ score then
    high_priority cfg oracle now info urgent core
  else
    match sha1_match core.pool info.text with
    | some eid =>
      let (db, pool) := ingest_by_sha1 core.db core.pool info eid now
      { core with db := db, pool := pool }
    | none => batch_push cfg info core

/-- Source `Pipeline.process`: in-memory dedup deque, SQLite dedup table, then
routing. -/
def process (cfg : Config) (oracle : String → Option EventSignature)
    (now : Rat) (info : MessageInfo) (s : PState) : PState :=
  let s := { s with statsMessages := s.statsMessages + 1 }
  let h := textSha1 info.text
  if h ∈ s.dupCache then s
  else
    let s := { s with dupCache := pushBounded 500 s.dupCache h }
    let (dup, db) := is_dup s.core.db h
    let s := { s with core := { s.core with db := db } }
    if dup then s
    else { s with core := route_message cfg oracle now info s.authority s.core }

/- ───── pipeline.py: aggregator loop ───────────────────────────────────── -/

/-- State touched by one pass of `Pipeline.aggregator_loop`. -/
structure AggState where
  pool : PoolState := {}
  db : DbState := {}
  authority : AuthState := {}
  sender : SenderState := {}
  ai : AIState := {}
deriving Repr, DecidableEq

/-- Source `Pipeline._dispatch_trend`: build the authority context, ask the AI for
a trend summary (falling back to a fixed Hebrew template when it returns
the empty string) and hand the result to the sender. -/
def dispatch_trend (cfg : Config) (sumOracle : String → String) (now : Rat)
    (ev : AggEvent) (st : AggState) : AggState :=
  let scores := ev.channels.map (fun c => (c, get_score cfg st.authority c))
  let top := (sortBy (fun a b => b.2 ≤ a.2) scores).take 3
  let ctx := "מקורות: " ++ String.intercalate ", "
    (top.map (fun p => "@" ++ p.1 ++ " (" ++ get_label p.2 ++ ")"))
  let (raw, ai) := summarize_trend cfg sumOracle now st.ai (ev.texts.headD "") ctx
  let summary :=
    if raw == "" then
      "עדכון מגמה: דיווחים חוזרים (" ++ toString ev.channels.length ++
        " ערוצים) על אירוע/תנועה חריגה.\n> \"" ++
        (⟨(ev.texts.headD "").data.take 120⟩ : String) ++ "...\""
    else raw
  { st with ai := ai,
            sender := send_trend_report cfg st.authority ev summary st.sender }

/-- Source `Pipeline._dispatch_single`. -/
def dispatch_single (cfg : Config) (sumOracle : String → String) (now : Rat)
    (ev : AggEvent) (st : AggState) : AggState :=
  let ch := (ev.channels.head?).getD ""
  let ctx := "מקור: @" ++ ch ++ " (אמינות " ++
    get_label (get_score cfg st.authority ch) ++ ")"
  let (raw, ai) := summarize_trend cfg sumOracle now st.ai (ev.texts.headD "") ctx
  let summary :=
    if raw == "" then (⟨(ev.texts.headD "").data.take 200⟩ : String) else raw
  { st with ai := ai,
            sender := send_single_source_alert cfg st.authority ev summary st.sender }

/-- The body of `Pipeline.aggregator_loop` for one snapshot entry
`(eid, ev)` of the active pool: skip events still inside the merge window;
expire already-sent events; dispatch / corroborate / penalize according to
the channel count; finally mark the event object sent and expire it from
the pool. -/
def aggregator_body (cfg : Config) (sumOracle : String → String) (now : Rat)
    (e : String × AggEvent) (st : AggState) : AggState :=
  let eid := e.1
  let ev := e.2
  if now - ev.first_ts < cfg.mergeWindow then st
  else if ev.sent then { st with pool := pool_expire st.pool eid }
  else
    let st :=
      if cfg.minSources ≤ ev.channels.length then
        let st := dispatch_trend cfg sumOracle now ev st
        let st := { st with authority := on_event_corroborated cfg st.authority ev }
        { st with db := mark_event_sent st.db eid }
      else if ev.channels.length == 1 then
        let ch := (ev.channels.head?).getD ""
        let score := get_score cfg st.authority ch
        if 80 ≤ score then
          let st := dispatch_single cfg sumOracle now ev st
          { st with db := mark_event_sent st.db eid }
        else
          let st :=
            { st with authority := on_event_expired_uncorroborated cfg st.authority ev }
          { st with db := mark_event_expired st.db eid }
      else st
    { st with pool := pool_expire st.pool eid }

/- ───── Helper lemmas ───────────────────────────────────────────────────── -/

theorem mem_pushBounded (n : Nat) (hn : 1 ≤ n) (l : List String) (x : String) :
    x ∈ pushBounded n l x := by
  unfold pushBounded
  dsimp only
  split
  · rename_i h
    have hk : (l ++ [x]).length - n ≤ l.length := by
      simp only [List.length_append, List.length_singleton]
      omega
    rw [List.drop_append_of_le_length hk]
    simp
  · simp

theorem mem_insertSorted (le : α → α → Bool) (x y : α) (ys : List α) :
    x ∈ insertSorted le y ys ↔ x = y ∨ x ∈ ys := by
  induction ys with
  | nil => simp [insertSorted]
  | cons z zs ih =>
    unfold insertSorted
    split
    · simp
    · simp [ih]
      tauto

theorem mem_sortBy (le : α → α → Bool) (x : α) (l : List α) :
    x ∈ sortBy le l ↔ x ∈ l := by
  induction l with
  | nil => simp [sortBy]
  | cons y ys ih => simp [sortBy, mem_insertSorted, ih]

theorem mem_foldl_setInsert (l : List String) (acc : List String) (x : String) :
    x ∈ l.foldl (fun acc c => if c ∈ acc then acc else acc ++ [c]) acc ↔
      x ∈ acc ∨ x ∈ l := by
  induction l generalizing acc with
  | nil => simp
  | cons c cs ih =>
    simp only [List.foldl_cons]
    by_cases hc : c ∈ acc
    · rw [if_pos hc, ih]
      simp only [List.mem_cons]
      constructor
      · rintro (h | h)
        · exact Or.inl h
        · exact Or.inr (Or.inr h)
      · rintro (h | rfl | h)
        · exact Or.inl h
        · exact Or.inl hc
        · exact Or.inr h
    · rw [if_neg hc, ih]
      simp only [List.mem_append, List.mem_singleton, List.mem_cons]
      tauto

theorem mem_setOfList (l : List String) (x : String) :
    x ∈ setOfList l ↔ x ∈ l := by
  simp [setOfList, mem_foldl_setInsert]

theorem mem_dictInsert (l : List (String × α)) (k : String) (v : α)
    (p : String × α) (h : p ∈ dictInsert l k v) : p = (k, v) ∨ p ∈ l := by
  unfold dictInsert at h
  split at h
  · rcases List.mem_map.mp h with ⟨q, hq, hpq⟩
    by_cases hk : q.1 == k
    · simp [hk] at hpq
      exact Or.inl hpq.symm
    · simp [hk] at hpq
      exact Or.inr (hpq ▸ hq)
  · rcases List.mem_append.mp h with h | h
    · exact Or.inr h
    · simp at h
      exact Or.inl h

theorem insertSorted_const_true (x : α) (xs : List α) :
    insertSorted (fun _ _ => true) x xs = x :: xs := by
  cases xs <;> simp [insertSorted]

theorem sortBy_const_true (l : List α) : sortBy (fun _ _ => true) l = l := by
  induction l with
  | nil => rfl
  | cons x xs ih => simp [sortBy, ih, insertSorted_const_true]

theorem le_ite_add (c : Prop) [Decidable c] (x y z : Rat) (h : x ≤ z)
    (hy : 0 ≤ y) : x ≤ if c then z + y else z := by
  split_ifs
  · linarith
  · exact h

theorem process_dupCache_mem (cfg : Config) (oracle : String → Option EventSignature)
    (now : Rat) (info : MessageInfo) (s : PState) :
    textSha1 info.text ∈ (process cfg oracle now info s).dupCache := by
  unfold process
  dsimp only
  by_cases hm : textSha1 info.text ∈ s.dupCache
  · rw [if_pos hm]
    exact hm
  · rw [if_neg hm]
    simp only [is_dup]
    by_cases hd : textSha1 info.text ∈ s.core.db.dedup
    · rw [if_pos hd]
      exact mem_pushBounded 500 (by decide) _ _
    · rw [if_neg hd]
      exact mem_pushBounded 500 (by decide) _ _

theorem process_of_mem_dupCache (cfg : Config) (oracle : String → Option EventSignature)
    (now : Rat) (info : MessageInfo) (s : PState)
    (h : textSha1 info.text ∈ s.dupCache) :
    process cfg oracle now info s = { s with statsMessages := s.statsMessages + 1 } := by
  unfold process
  dsimp only
  rw [if_pos h]

/- ───── Claim theorems ──────────────────────────────────────────────────── -/

/-- C10: restoring pending events does not rebuild the fingerprint index —
after `load_from_db` on the fresh startup pool, `sha1_match` answers
`none` for every text. -/
theorem c10_sha1_index_not_rebuilt (db : DbState) (text : String) :
    sha1_match (load_from_db db emptyPool) text = none := rfl

/-- C8: dispatching a trend report and immediately retrying the dispatch
with the identically rendered body sends the output at most once — the
attempted-send list does not grow on the retry, because the body's
fingerprint is found in the recent-sends cache. -/
theorem c8_dispatch_at_most_once (cfg : Config) (auth : AuthState)
    (ev : AggEvent) (summary : String) (st : SenderState) :
    (send_trend_report cfg auth ev summary
        (send_trend_report cfg auth ev summary st)).sentMessages
      = (send_trend_report cfg auth ev summary st).sentMessages := by
  unfold send_trend_report is_sent
  by_cases hc :
      (textSha1 (render_trend_report cfg auth ev summary)).take 16 ∈ st.cache
  · simp [hc]
  · simp only [hc]
    simp [mem_pushBounded 800 (by decide) st.cache
      ((textSha1 (render_trend_report cfg auth ev summary)).take 16)]

/-- C5: the authority score bounds.  Every `_adjust` (with any delta, which
covers +2.0, +3.0 and -1.5) and every hourly decay step keeps all cached
scores inside `[MIN_SCORE, MAX_SCORE] = [10.0, 95.0]`, assuming the class
defaults lie in that interval and the cache starts inside it. -/
theorem c5_score_bounds (cfg : Config) (auth : AuthState)
    (hdef : MIN_SCORE ≤ cfg.arabDefault ∧ cfg.arabDefault ≤ MAX_SCORE)
    (hc : ∀ p ∈ auth.cache, MIN_SCORE ≤ p.2 ∧ p.2 ≤ MAX_SCORE) :
    (∀ ch : String, ∀ δ : Rat, ∀ p ∈ (authority_adjust cfg auth ch δ).cache,
        MIN_SCORE ≤ p.2 ∧ p.2 ≤ MAX_SCORE) ∧
    (∀ p ∈ (apply_decay cfg auth).cache,
        MIN_SCORE ≤ p.2 ∧ p.2 ≤ MAX_SCORE) := by
  have hclamp : ∀ x : Rat, MIN_SCORE ≤ max MIN_SCORE (min MAX_SCORE x) ∧
      max MIN_SCORE (min MAX_SCORE x) ≤ MAX_SCORE := by
    intro x
    refine ⟨le_max_left _ _, max_le ?_ (min_le_left _ _)⟩
    norm_num [MIN_SCORE, MAX_SCORE]
  constructor
  · intro ch δ p hp
    rcases mem_dictInsert _ _ _ _ hp with h | h
    · subst h
      exact hclamp _
    · exact hc p h
  · intro p hp
    unfold apply_decay at hp
    simp only at hp
    rcases List.mem_map.mp hp with ⟨q, hq, hpq⟩
    by_cases hmv : (0.01 : Rat) < |max MIN_SCORE (min MAX_SCORE
        (q.2 - (q.2 - ((auth.defaults.lookup q.1).getD cfg.arabDefault)) * DECAY_RATE)) - q.2|
    · rw [if_pos hmv] at hpq
      exact hpq ▸ hclamp _
    · rw [if_neg hmv] at hpq
      exact hpq ▸ hc q hq

/-- Closed witness for C5 at a concrete configuration and cache. -/
theorem c5_score_bounds_witness :
    ((MIN_SCORE ≤ (({} : Config)).arabDefault ∧ (({} : Config)).arabDefault ≤ MAX_SCORE) ∧
      (∀ p ∈ ({ cache := [("alpha", 50)] } : AuthState).cache,
        MIN_SCORE ≤ p.2 ∧ p.2 ≤ MAX_SCORE)) ∧
    ((∀ ch : String, ∀ δ : Rat,
        ∀ p ∈ (authority_adjust {} { cache := [("alpha", 50)] } ch δ).cache,
          MIN_SCORE ≤ p.2 ∧ p.2 ≤ MAX_SCORE) ∧
      (∀ p ∈ (apply_decay {} { cache := [("alpha", 50)] }).cache,
          MIN_SCORE ≤ p.2 ∧ p.2 ≤ MAX_SCORE)) := by
  have h1 : MIN_SCORE ≤ (({} : Config)).arabDefault ∧
      (({} : Config)).arabDefault ≤ MAX_SCORE := by
    norm_num [MIN_SCORE, MAX_SCORE]
  have h2 : ∀ p ∈ ({ cache := [("alpha", 50)] } : AuthState).cache,
      MIN_SCORE ≤ p.2 ∧ p.2 ≤ MAX_SCORE := by
    intro p hp
    simp at hp
    subst hp
    norm_num [MIN_SCORE, MAX_SCORE]
  exact ⟨⟨h1, h2⟩, c5_score_bounds {} { cache := [("alpha", 50)] } h1 h2⟩

/-- C4: processing a message whose text was already processed is a no-op on
the persistent event rows, the source rows and the in-memory pool — the
second call is stopped by the dedup caches that the first call populated. -/
theorem c4_process_idempotent_on_duplicate (cfg : Config)
    (oracle : String → Option EventSignature) (now now2 : Rat)
    (info : MessageInfo) (s : PState) :
    (process cfg oracle now2 info (process cfg oracle now info s)).core.db.events
        = (process cfg oracle now info s).core.db.events ∧
    (process cfg oracle now2 info (process cfg oracle now info s)).core.db.sources
        = (process cfg oracle now info s).core.db.sources ∧
    (process cfg oracle now2 info (process cfg oracle now info s)).core.pool
        = (process cfg oracle now info s).core.pool := by
  rw [process_of_mem_dupCache cfg oracle now2 info _
    (process_dupCache_mem cfg oracle now info s)]
  exact ⟨rfl, rfl, rfl⟩

/-- C2 counterexample: a signature with no location and a non-"other" event
type scores only 0.3 against itself, below the claimed 0.5 bound. -/
theorem c2_counterexample_self_match :
    ({ event_type := "strike" } : EventSignature).location = none ∧
    ({ event_type := "strike" } : EventSignature).event_type ≠ "other" ∧
    ¬ ((0.5 : Rat) ≤
        signatures_match { event_type := "strike" } { event_type := "strike" }) := by
  refine ⟨rfl, by decide, ?_⟩
  have h : signatures_match { event_type := "strike" } { event_type := "strike" }
      = 0.3 := by
    simp [signatures_match, strTruthy]
    norm_num
  rw [h]
  norm_num

/-- C2 (amended): a signature with a truthy location scores at least 0.5
against itself; one with only a non-"other" event type scores at least
0.3. -/
theorem c2_self_match_lower_bounds (a : EventSignature) :
    (strTruthy a.location = true → (0.5 : Rat) ≤ signatures_match a a) ∧
    (a.event_type ≠ "other" → (0.3 : Rat) ≤ signatures_match a a) := by
  constructor
  · intro hl
    simp only [signatures_match]
    refine le_min ?_ (by norm_num)
    refine le_ite_add _ _ _ _ ?_ (by positivity)
    simp only [hl, Bool.and_self, beq_self_eq_true, if_true]
    split_ifs <;> norm_num
  · intro ht
    simp only [signatures_match]
    refine le_min ?_ (by norm_num)
    refine le_ite_add _ _ _ _ ?_ (by positivity)
    have hcond : (a.event_type == a.event_type && a.event_type != "other") = true := by
      simp [bne_iff_ne, ht]
    rw [if_pos hcond]
    split_ifs <;> norm_num

/-- Closed witness for the amended C2 at a concrete signature having both a
location and a non-"other" type. -/
theorem c2_self_match_lower_bounds_witness :
    strTruthy ({ location := some "Gaza", event_type := "strike" } : EventSignature).location
        = true ∧
    ({ location := some "Gaza", event_type := "strike" } : EventSignature).event_type ≠ "other" ∧
    (0.5 : Rat) ≤ signatures_match { location := some "Gaza", event_type := "strike" }
        { location := some "Gaza", event_type := "strike" } ∧
    (0.3 : Rat) ≤ signatures_match { location := some "Gaza", event_type := "strike" }
        { location := some "Gaza", event_type := "strike" } :=
  ⟨by decide, by decide,
   (c2_self_match_lower_bounds _).1 (by decide),
   (c2_self_match_lower_bounds _).2 (by decide)⟩

theorem isPyDigit_lowerCp (c : Nat) : isPyDigit (lowerCp c) = isPyDigit c := by
  unfold lowerCp isPyDigit
  split
  · rename_i h
    simp only [Bool.and_eq_true, decide_eq_true_eq] at h
    apply Bool.eq_iff_iff.mpr
    simp only [Bool.or_eq_true, Bool.and_eq_true, decide_eq_true_eq]
    omega
  · rfl

theorem isTashkeel_lowerCp (c : Nat) : isTashkeel (lowerCp c) = isTashkeel c := by
  unfold lowerCp isTashkeel
  split
  · rename_i h
    simp only [Bool.and_eq_true, decide_eq_true_eq] at h
    apply Bool.eq_iff_iff.mpr
    simp only [Bool.or_eq_true, Bool.and_eq_true, decide_eq_true_eq, beq_iff_eq]
    omega
  · rfl

theorem filter_map_comm (f : Nat → Nat) (p : Nat → Bool)
    (h : ∀ c, p (f c) = p c) (l : List Nat) :
    (l.map f).filter p = (l.filter p).map f := by
  rw [List.filter_map]
  congr 1
  apply List.filter_congr
  intro a _
  exact h a

theorem filter_filter_comm (p q : Nat → Bool) (l : List Nat) :
    (l.filter q).filter p = (l.filter p).filter q := by
  rw [List.filter_filter, List.filter_filter]
  apply List.filter_congr
  intro a _
  rw [Bool.and_comm]

theorem removeDigits_lowerCps (l : List Nat) :
    removeDigits (lowerCps l) = lowerCps (removeDigits l) := by
  unfold removeDigits lowerCps
  exact filter_map_comm _ _ (fun c => by rw [isPyDigit_lowerCp]) l

theorem removeDigits_stripTashkeel (l : List Nat) :
    removeDigits (stripTashkeel l) = stripTashkeel (removeDigits l) := by
  unfold removeDigits stripTashkeel
  exact filter_filter_comm _ _ l

theorem lowerCps_stripTashkeel (l : List Nat) :
    lowerCps (stripTashkeel l) = stripTashkeel (lowerCps l) := by
  unfold lowerCps stripTashkeel
  exact (filter_map_comm _ _ (fun c => by rw [isTashkeel_lowerCp]) l).symm

/-- C6 counterexample: inserting the tashkeel mark U+0653 after the Arabic
letter alef changes the fingerprint, because Unicode NFC composes the pair
into U+0622 (alef with madda), which survives the tashkeel stripping.  The
two texts differ only by insertion of one tashkeel diacritic, yet their
keys differ. -/
theorem c6_counterexample_nfc_composition :
    stripTashkeel [0x627, 0x653] = stripTashkeel [0x627] ∧
    isTashkeel 0x653 = true ∧
    sha1_event_key [0x627, 0x653] ≠ sha1_event_key [0x627] :=
  ⟨by decide, by decide, by decide⟩

/-- C6 (amended): on texts that Unicode NFC leaves unchanged, the
fingerprint is invariant under tashkeel insertion/removal, digit changes
and ASCII case. -/
theorem c6_fingerprint_invariance_amended (t1 t2 : List Nat)
    (h1 : nfcArabic t1 = t1) (h2 : nfcArabic t2 = t2)
    (h : stripTashkeel t1 = stripTashkeel t2 ∨
         removeDigits t1 = removeDigits t2 ∨
         lowerCps t1 = lowerCps t2) :
    sha1_event_key t1 = sha1_event_key t2 := by
  unfold sha1_event_key
  dsimp only
  rw [h1, h2]
  rcases h with h | h | h
  · rw [h]
  · rw [removeDigits_lowerCps, removeDigits_lowerCps,
        removeDigits_stripTashkeel, removeDigits_stripTashkeel, h]
  · rw [lowerCps_stripTashkeel, lowerCps_stripTashkeel, h]

/-- Closed witness for the amended C6: two NFC-normal texts differing only
in digit characters share their fingerprint. -/
theorem c6_fingerprint_invariance_amended_witness :
    nfcArabic (codepoints "area 51") = codepoints "area 51" ∧
    nfcArabic (codepoints "area 7") = codepoints "area 7" ∧
    removeDigits (codepoints "area 51") = removeDigits (codepoints "area 7") ∧
    sha1_event_key (codepoints "area 51") = sha1_event_key (codepoints "area 7") :=
  ⟨by decide, by decide, by decide,
   c6_fingerprint_invariance_amended _ _ (by decide) (by decide)
     (Or.inr (Or.inl (by decide)))⟩

/-- C1: the first-to-report bonus is NOT applied to the channel with the
earliest `reported_at`.  `on_event_corroborated` sorts the channel set by
the constant key `event.first_ts`, so the bonus goes to whatever channel
the set iteration yields first.  Concretely: channel "a" has the earliest
source row (`reported_at` 100 vs 200), yet with iteration order
`["b", "a"]` the +3.0 bonus lands on "b" (score 50 → 52 → 55) while "a"
receives only the +2.0 corroboration boost (50 → 52). -/
theorem c1_first_to_report_constant_key_bug :
    earliest_reporter
        [{ event_id := "e1", channel := "b", reported_at := 200, raw_text := "x", link := "" },
         { event_id := "e1", channel := "a", reported_at := 100, raw_text := "x", link := "" }]
      = some "a" ∧
    (on_event_corroborated {} { cache := [("a", 50), ("b", 50)] }
        { event_id := "e1", signature := {}, channels := ["b", "a"], first_ts := 1000 }).cache
      = [("a", 52), ("b", 55)] := by
  have hab : (("a" : String) == "b") = false := by decide
  have hba : (("b" : String) == "a") = false := by decide
  have haa : (("a" : String) == "a") = true := by decide
  have hbb : (("b" : String) == "b") = true := by decide
  have hab' : ("a" : String) ≠ "b" := by decide
  have hba' : ("b" : String) ≠ "a" := by decide
  constructor
  · norm_num [earliest_reporter, sortBy, insertSorted]
  · norm_num [on_event_corroborated, authority_adjust, get_score, dictInsert,
      sortBy, insertSorted, MIN_SCORE, MAX_SCORE, CORROBORATION_BOOST,
      FIRST_TO_REPORT_BOOST, List.lookup, List.any, List.head?, Option.getD,
      hab, hba, haa, hbb, hab', hba']

theorem mark_event_sent_status (db : DbState) (eid : String) :
    ∀ r ∈ (mark_event_sent db eid).events, r.event_id = eid → r.status = .sent := by
  intro r hr heq
  unfold mark_event_sent at hr
  dsimp only at hr
  rcases List.mem_map.mp hr with ⟨q, hq, hpq⟩
  by_cases h : q.event_id == eid
  · rw [if_pos h] at hpq
    exact hpq ▸ rfl
  · rw [if_neg h] at hpq
    subst hpq
    exact absurd (beq_iff_eq.mpr heq) h

theorem mark_event_expired_status (db : DbState) (eid : String) :
    ∀ r ∈ (mark_event_expired db eid).events, r.event_id = eid → r.status = .expired := by
  intro r hr heq
  unfold mark_event_expired at hr
  dsimp only at hr
  rcases List.mem_map.mp hr with ⟨q, hq, hpq⟩
  by_cases h : q.event_id == eid
  · rw [if_pos h] at hpq
    exact hpq ▸ rfl
  · rw [if_neg h] at hpq
    subst hpq
    exact absurd (beq_iff_eq.mpr heq) h

theorem pool_expire_not_mem (pool : PoolState) (eid : String) :
    ∀ p ∈ (pool_expire pool eid).active, p.1 ≠ eid := by
  intro p hp
  unfold pool_expire at hp
  rcases List.mem_filter.mp hp with ⟨_, h⟩
  simpa using h

/-- C3 counterexample: with `MIN_SOURCES = 3`, a mature event backed by two
channels is removed from the in-memory pool while its Durable Store row
stays `pending` forever — neither the `≥ MIN_SOURCES` branch nor the
`== 1` branch of the aggregator fires. -/
theorem c3_counterexample_two_source_gap :
    (aggregator_body { minSources := 3 } (fun _ => "") 600
        ("e1", { event_id := "e1", signature := {}, channels := ["a", "b"], first_ts := 0 })
        { pool := { active := [("e1", { event_id := "e1", signature := {}, channels := ["a", "b"], first_ts := 0 })] },
          db := { events := [{ event_id := "e1", signature := {}, first_seen := 0, last_updated := 0 }] } }).db.events
      = [{ event_id := "e1", signature := {}, first_seen := 0, last_updated := 0, source_count := 1, status := .pending }] ∧
    (aggregator_body { minSources := 3 } (fun _ => "") 600
        ("e1", { event_id := "e1", signature := {}, channels := ["a", "b"], first_ts := 0 })
        { pool := { active := [("e1", { event_id := "e1", signature := {}, channels := ["a", "b"], first_ts := 0 })] },
          db := { events := [{ event_id := "e1", signature := {}, first_seen := 0, last_updated := 0 }] } }).pool.active
      = [] := by
  constructor
  · norm_num [aggregator_body, pool_expire]
  · norm_num [aggregator_body, pool_expire]

/-- C3 (amended): a mature, not-yet-sent event evaluated by the aggregator
always leaves the in-memory pool, and its Durable Store status becomes
`sent` when it has at least `MIN_SOURCES` channels and `sent` or `expired`
when it has exactly one; but when the channel count lies strictly between
1 and `MIN_SOURCES` the Durable Store is untouched, so the row stays
`pending`. -/
theorem c3_aggregator_terminal_amended (cfg : Config) (sumOracle : String → String)
    (now : Rat) (eid : String) (ev : AggEvent) (st : AggState)
    (hmature : cfg.mergeWindow ≤ now - ev.first_ts)
    (hsent : ev.sent = false) :
    (∀ p ∈ (aggregator_body cfg sumOracle now (eid, ev) st).pool.active, p.1 ≠ eid) ∧
    (cfg.minSources ≤ ev.channels.length →
      ∀ r ∈ (aggregator_body cfg sumOracle now (eid, ev) st).db.events,
        r.event_id = eid → r.status = .sent) ∧
    (ev.channels.length = 1 → ¬ cfg.minSources ≤ ev.channels.length →
      ∀ r ∈ (aggregator_body cfg sumOracle now (eid, ev) st).db.events,
        r.event_id = eid → r.status = .sent ∨ r.status = .expired) ∧
    (1 < ev.channels.length → ev.channels.length < cfg.minSources →
      (aggregator_body cfg sumOracle now (eid, ev) st).db = st.db) := by
  unfold aggregator_body
  dsimp only
  rw [if_neg (not_lt.mpr hmature), if_neg (by rw [hsent]; exact Bool.false_ne_true)]
  by_cases h1 : cfg.minSources ≤ ev.channels.length
  · rw [if_pos h1]
    refine ⟨pool_expire_not_mem _ _, fun _ => mark_event_sent_status _ _, ?_, ?_⟩
    · intro _ hn
      exact absurd h1 hn
    · intro _ hlt
      omega
  · rw [if_neg h1]
    by_cases h2 : ev.channels.length == 1
    · rw [if_pos h2]
      have h2' : ev.channels.length = 1 := beq_iff_eq.mp h2
      by_cases h3 : (80 : Rat) ≤ get_score cfg st.authority ((ev.channels.head?).getD "")
      · rw [if_pos h3]
        refine ⟨pool_expire_not_mem _ _, fun h => absurd h h1, ?_, ?_⟩
        · intro _ _ r hr heq
          exact Or.inl (mark_event_sent_status _ _ r hr heq)
        · intro hlt _
          omega
      · rw [if_neg h3]
        refine ⟨pool_expire_not_mem _ _, fun h => absurd h h1, ?_, ?_⟩
        · intro _ _ r hr heq
          exact Or.inr (mark_event_expired_status _ _ r hr heq)
        · intro hlt _
          omega
    · rw [if_neg h2]
      refine ⟨pool_expire_not_mem _ _, fun h => absurd h h1, ?_, fun _ _ => rfl⟩
      intro h
      exact absurd (beq_iff_eq.mpr h) h2

/-- Closed witness for the amended C3 at a mature two-channel event with
the default `MIN_SOURCES = 2`. -/
theorem c3_aggregator_terminal_amended_witness :
    (({} : Config).mergeWindow ≤ (600 : Rat) -
        ({ event_id := "e1", signature := {}, channels := ["a", "b"], first_ts := 0 } : AggEvent).first_ts ∧
      ({ event_id := "e1", signature := {}, channels := ["a", "b"], first_ts := 0 } : AggEvent).sent = false) ∧
    ((∀ p ∈ (aggregator_body {} (fun _ => "") 600
        ("e1", { event_id := "e1", signature := {}, channels := ["a", "b"], first_ts := 0 })
        {}).pool.active, p.1 ≠ "e1") ∧
     (({} : Config).minSources ≤ (["a", "b"] : List String).length →
      ∀ r ∈ (aggregator_body {} (fun _ => "") 600
          ("e1", { event_id := "e1", signature := {}, channels := ["a", "b"], first_ts := 0 })
          {}).db.events, r.event_id = "e1" → r.status = .sent) ∧
     ((["a", "b"] : List String).length = 1 →
      ¬ ({} : Config).minSources ≤ (["a", "b"] : List String).length →
      ∀ r ∈ (aggregator_body {} (fun _ => "") 600
          ("e1", { event_id := "e1", signature := {}, channels := ["a", "b"], first_ts := 0 })
          {}).db.events, r.event_id = "e1" → r.status = .sent ∨ r.status = .expired) ∧
     (1 < (["a", "b"] : List String).length →
      (["a", "b"] : List String).length < ({} : Config).minSources →
      (aggregator_body {} (fun _ => "") 600
          ("e1", { event_id := "e1", signature := {}, channels := ["a", "b"], first_ts := 0 })
          {}).db = ({} : AggState).db)) :=
  ⟨⟨by norm_num, rfl⟩,
   c3_aggregator_terminal_amended {} (fun _ => "") 600 "e1"
     { event_id := "e1", signature := {}, channels := ["a", "b"], first_ts := 0 } {}
     (by norm_num) rfl⟩

theorem batch_push_ai (cfg : Config) (info : MessageInfo) (core : CoreState) :
    (batch_push cfg info core).ai = core.ai := by
  unfold batch_push
  dsimp only
  split <;> rfl

theorem batch_push_db (cfg : Config) (info : MessageInfo) (core : CoreState) :
    (batch_push cfg info core).db = core.db := by
  unfold batch_push
  dsimp only
  split <;> rfl

theorem batch_push_pool (cfg : Config) (info : MessageInfo) (core : CoreState) :
    (batch_push cfg info core).pool = core.pool := by
  unfold batch_push
  dsimp only
  split <;> rfl

theorem batch_push_batch_small (cfg : Config) (info : MessageInfo)
    (core : CoreState) (h : core.batch.length + 1 < cfg.batchSize) :
    (batch_push cfg info core).batch = core.batch ++ [info] := by
  unfold batch_push
  dsimp only
  rw [if_neg]
  simp only [List.length_append, List.length_singleton]
  omega

theorem route_message_budget_exhausted (cfg : Config)
    (oracle : String → Option EventSignature) (now : Rat) (info : MessageInfo)
    (auth : AuthState) (core : CoreState)
    (hbudget : cfg.budgetHourly ≤ core.ai.callsUsed)
    (hhour : now - core.ai.budgetResetTs < 3600)
    (hgate : looks_urgent info.text = true ∨
      cfg.highThreshold ≤ get_score cfg auth info.channel) :
    route_message cfg oracle now info auth core =
      if looks_urgent info.text = true then batch_push cfg info core else core := by
  unfold route_message
  dsimp only
  rw [if_pos hgate]
  unfold high_priority extract_signature
  have hcharge : ai_charge cfg now core.ai = (false, core.ai) := by
    unfold ai_charge
    dsimp only
    rw [if_neg (not_le.mpr hhour), if_pos hbudget]
  rw [hcharge]
  rfl

/-- C7: with the hourly LLM budget exhausted (and the hour not yet rolled
over), `extract_signature` returns `none` and the pipeline performs no
network call; a fresh message on the high-priority path is appended to the
batch collector when it is urgent, and otherwise never enters event
correlation — the events, source rows and pool are untouched either
way. -/
theorem c7_budget_exhausted_no_network (cfg : Config)
    (oracle : String → Option EventSignature) (now : Rat) (info : MessageInfo)
    (s : PState)
    (hbudget : cfg.budgetHourly ≤ s.core.ai.callsUsed)
    (hhour : now - s.core.ai.budgetResetTs < 3600)
    (hfresh1 : textSha1 info.text ∉ s.dupCache)
    (hfresh2 : textSha1 info.text ∉ s.core.db.dedup)
    (hgate : looks_urgent info.text = true ∨
      cfg.highThreshold ≤ get_score cfg s.authority info.channel)
    (hbatch : s.core.batch.length + 1 < cfg.batchSize) :
    (extract_signature cfg oracle now s.core.ai info.text).1 = none ∧
    (process cfg oracle now info s).core.ai.networkCalls = s.core.ai.networkCalls ∧
    (process cfg oracle now info s).core.db.events = s.core.db.events ∧
    (process cfg oracle now info s).core.db.sources = s.core.db.sources ∧
    (process cfg oracle now info s).core.pool = s.core.pool ∧
    (looks_urgent info.text = true →
      (process cfg oracle now info s).core.batch = s.core.batch ++ [info]) ∧
    (looks_urgent info.text = false →
      (process cfg oracle now info s).core.batch = s.core.batch) := by
  have hcharge : ai_charge cfg now s.core.ai = (false, s.core.ai) := by
    unfold ai_charge
    dsimp only
    rw [if_neg (not_le.mpr hhour), if_pos hbudget]
  have h1 : (extract_signature cfg oracle now s.core.ai info.text).1 = none := by
    unfold extract_signature
    rw [hcharge]
    rfl
  have hkey : (process cfg oracle now info s).core =
      (if looks_urgent info.text = true
        then batch_push cfg info
          { s.core with db := { s.core.db with dedup := s.core.db.dedup ++ [textSha1 info.text] } }
        else { s.core with db := { s.core.db with dedup := s.core.db.dedup ++ [textSha1 info.text] } }) := by
    unfold process
    dsimp only
    rw [if_neg hfresh1]
    simp only [is_dup]
    rw [if_neg hfresh2]
    dsimp only
    rw [if_neg Bool.false_ne_true]
    dsimp only
    exact route_message_budget_exhausted cfg oracle now info s.authority _
      hbudget hhour hgate
  refine ⟨h1, ?_, ?_, ?_, ?_, ?_, ?_⟩ <;> rw [hkey]
  · by_cases hurg : looks_urgent info.text = true
    · rw [if_pos hurg, batch_push_ai]
    · rw [if_neg hurg]
  · by_cases hurg : looks_urgent info.text = true
    · rw [if_pos hurg, batch_push_db]
    · rw [if_neg hurg]
  · by_cases hurg : looks_urgent info.text = true
    · rw [if_pos hurg, batch_push_db]
    · rw [if_neg hurg]
  · by_cases hurg : looks_urgent info.text = true
    · rw [if_pos hurg, batch_push_pool]
    · rw [if_neg hurg]
  · intro hurg
    rw [if_pos hurg]
    exact batch_push_batch_small cfg info _ hbatch
  · intro hurg
    rw [if_neg (by rw [hurg]; exact Bool.false_ne_true)]

/-- Closed witness for C7 at a concrete exhausted-budget state and an
urgent Arabic message. -/
theorem c7_budget_exhausted_no_network_witness :
    (({} : Config).budgetHourly ≤
        ({ core := { ai := { callsUsed := 120 } } } : PState).core.ai.callsUsed ∧
      (10 : Rat) - ({ core := { ai := { callsUsed := 120 } } } : PState).core.ai.budgetResetTs < 3600 ∧
      looks_urgent "عاجل: انفجار" = true) ∧
    ((extract_signature {} (fun _ => none) 10
        ({ core := { ai := { callsUsed := 120 } } } : PState).core.ai "عاجل: انفجار").1 = none ∧
      (process {} (fun _ => none) 10
        { text := "عاجل: انفجار", link := "", channel := "c1" }
        { core := { ai := { callsUsed := 120 } } }).core.ai.networkCalls =
        ({ core := { ai := { callsUsed := 120 } } } : PState).core.ai.networkCalls ∧
      (process {} (fun _ => none) 10
        { text := "عاجل: انفجار", link := "", channel := "c1" }
        { core := { ai := { callsUsed := 120 } } }).core.db.events =
        ({ core := { ai := { callsUsed := 120 } } } : PState).core.db.events ∧
      (process {} (fun _ => none) 10
        { text := "عاجل: انفجار", link := "", channel := "c1" }
        { core := { ai := { callsUsed := 120 } } }).core.db.sources =
        ({ core := { ai := { callsUsed := 120 } } } : PState).core.db.sources ∧
      (process {} (fun _ => none) 10
        { text := "عاجل: انفجار", link := "", channel := "c1" }
        { core := { ai := { callsUsed := 120 } } }).core.pool =
        ({ core := { ai := { callsUsed := 120 } } } : PState).core.pool ∧
      (looks_urgent "عاجل: انفجار" = true →
        (process {} (fun _ => none) 10
          { text := "عاجل: انفجار", link := "", channel := "c1" }
          { core := { ai := { callsUsed := 120 } } }).core.batch =
          ({ core := { ai := { callsUsed := 120 } } } : PState).core.batch ++
            [{ text := "عاجل: انفجار", link := "", channel := "c1" }]) ∧
      (looks_urgent "عاجل: انفجار" = false →
        (process {} (fun _ => none) 10
          { text := "عاجل: انفجار", link := "", channel := "c1" }
          { core := { ai := { callsUsed := 120 } } }).core.batch =
          ({ core := { ai := { callsUsed := 120 } } } : PState).core.batch)) :=
  ⟨⟨by decide, by norm_num, by decide⟩,
   c7_budget_exhausted_no_network {} (fun _ => none) 10
     { text := "عاجل: انفجار", link := "", channel := "c1" }
     { core := { ai := { callsUsed := 120 } } }
     (by decide) (by norm_num) (by decide) (by decide)
     (Or.inl (by decide)) (by decide)⟩

theorem foldl_dictInsert_append (f : DbEventRow → AggEvent)
    (rows : List DbEventRow) (act : List (String × AggEvent))
    (hnd : (rows.map (fun r => r.event_id)).Nodup)
    (hdisj : ∀ r ∈ rows, ∀ p ∈ act, p.1 ≠ r.event_id) :
    rows.foldl (fun a r => dictInsert a r.event_id (f r)) act
      = act ++ rows.map (fun r => (r.event_id, f r)) := by
  induction rows generalizing act with
  | nil => simp
  | cons r rs ih =>
    simp only [List.foldl_cons, List.map_cons]
    have hany : (act.any (fun p => p.1 == r.event_id)) = false := by
      rw [List.any_eq_false]
      intro p hp
      simpa using hdisj r (List.mem_cons_self _ _) p hp
    rw [show dictInsert act r.event_id (f r) = act ++ [(r.event_id, f r)] by
      unfold dictInsert
      rw [if_neg (by rw [hany]; exact Bool.false_ne_true)]]
    have hnd2 : (∀ x ∈ rs, ¬ x.event_id = r.event_id) ∧
        (rs.map (fun q => q.event_id)).Nodup := by
      simpa using hnd
    rw [ih]
    · simp
    · exact hnd2.2
    · intro r' hr' p hp
      rcases List.mem_append.mp hp with h | h
      · exact hdisj r' (List.mem_cons_of_mem _ hr') p h
      · simp only [List.mem_singleton] at h
        subst h
        intro hcon
        exact hnd2.1 r' hr' hcon.symm

theorem load_from_db_eq (db : DbState)
    (hnd : (db.events.map (fun r => r.event_id)).Nodup) :
    (load_from_db db emptyPool).active
      = (get_pending_events db).map (fun r => (r.event_id, restored_event db r)) := by
  unfold load_from_db emptyPool
  dsimp only
  rw [foldl_dictInsert_append]
  · simp
  · exact hnd.sublist (List.Sublist.map _ (List.filter_sublist db.events))
  · intro r _ p hp
    simp at hp

/-- C9: after a clean shutdown, `load_from_db` on the startup pool rebuilds
the active pool to hold exactly the events whose Durable Store status is
`pending`, each with first_ts equal to the persisted `first_seen` and with
channel set equal to the set of channels of its source rows. -/
theorem c9_restore_exact (db : DbState)
    (hnd : (db.events.map (fun r => r.event_id)).Nodup) :
    (∀ eid : String,
      (∃ p ∈ (load_from_db db emptyPool).active, p.1 = eid) ↔
      (∃ r ∈ db.events, r.event_id = eid ∧ r.status = .pending)) ∧
    (∀ p ∈ (load_from_db db emptyPool).active,
      ∃ r ∈ db.events, r.event_id = p.1 ∧ r.status = .pending ∧
        p.2.first_ts = r.first_seen ∧
        (∀ c : String, c ∈ p.2.channels ↔
          ∃ src ∈ db.sources, src.event_id = p.1 ∧ src.channel = c)) := by
  rw [load_from_db_eq db hnd]
  constructor
  · intro eid
    simp only [List.mem_map, get_pending_events, List.mem_filter, beq_iff_eq]
    constructor
    · rintro ⟨p, ⟨r, ⟨hr, hst⟩, rfl⟩, h1⟩
      exact ⟨r, hr, by simpa using h1, hst⟩
    · rintro ⟨r, hr, heq, hst⟩
      exact ⟨(r.event_id, restored_event db r), ⟨r, ⟨hr, hst⟩, rfl⟩, heq⟩
  · intro p hp
    simp only [List.mem_map, get_pending_events, List.mem_filter, beq_iff_eq] at hp
    obtain ⟨r, ⟨hr, hst⟩, rfl⟩ := hp
    refine ⟨r, hr, rfl, hst, rfl, ?_⟩
    intro c
    show c ∈ (restored_event db r).channels ↔ _
    unfold restored_event
    dsimp only
    rw [mem_setOfList]
    simp only [List.mem_map]
    constructor
    · rintro ⟨src, hs, rfl⟩
      unfold get_event_sources at hs
      rw [mem_sortBy] at hs
      rcases List.mem_filter.mp hs with ⟨hs1, hs2⟩
      exact ⟨src, hs1, by simpa using hs2, rfl⟩
    · rintro ⟨src, hs, hseid, rfl⟩
      refine ⟨src, ?_, rfl⟩
      unfold get_event_sources
      rw [mem_sortBy]
      exact List.mem_filter.mpr ⟨hs, by simpa using hseid⟩

/-- Closed witness for C9 at a concrete store holding one pending and one
sent event with two source rows for the pending one. -/
theorem c9_restore_exact_witness :
    (([{ event_id := "e1", signature := {}, first_seen := 5, last_updated := 9, source_count := 2, status := .pending },
       { event_id := "e2", signature := {}, first_seen := 1, last_updated := 2, source_count := 1, status := .sent }] :
        List DbEventRow).map (fun r => r.event_id)).Nodup ∧
    ((∀ eid : String,
      (∃ p ∈ (load_from_db
          { events := [{ event_id := "e1", signature := {}, first_seen := 5, last_updated := 9, source_count := 2, status := .pending },
                       { event_id := "e2", signature := {}, first_seen := 1, last_updated := 2, source_count := 1, status := .sent }],
            sources := [{ event_id := "e1", channel := "a", reported_at := 5, raw_text := "t1", link := "" },
                        { event_id := "e1", channel := "b", reported_at := 7, raw_text := "t2", link := "" },
                        { event_id := "e2", channel := "z", reported_at := 1, raw_text := "t3", link := "" }] }
          emptyPool).active, p.1 = eid) ↔
      (∃ r ∈ ([{ event_id := "e1", signature := {}, first_seen := 5, last_updated := 9, source_count := 2, status := .pending },
               { event_id := "e2", signature := {}, first_seen := 1, last_updated := 2, source_count := 1, status := .sent }] :
          List DbEventRow), r.event_id = eid ∧ r.status = .pending)) ∧
    (∀ p ∈ (load_from_db
          { events := [{ event_id := "e1", signature := {}, first_seen := 5, last_updated := 9, source_count := 2, status := .pending },
                       { event_id := "e2", signature := {}, first_seen := 1, last_updated := 2, source_count := 1, status := .sent }],
            sources := [{ event_id := "e1", channel := "a", reported_at := 5, raw_text := "t1", link := "" },
                        { event_id := "e1", channel := "b", reported_at := 7, raw_text := "t2", link := "" },
                        { event_id := "e2", channel := "z", reported_at := 1, raw_text := "t3", link := "" }] }
          emptyPool).active,
      ∃ r ∈ ([{ event_id := "e1", signature := {}, first_seen := 5, last_updated := 9, source_count := 2, status := .pending },
              { event_id := "e2", signature := {}, first_seen := 1, last_updated := 2, source_count := 1, status := .sent }] :
          List DbEventRow), r.event_id = p.1 ∧ r.status = .pending ∧
        p.2.first_ts = r.first_seen ∧
        (∀ c : String, c ∈ p.2.channels ↔
          ∃ src ∈ ([{ event_id := "e1", channel := "a", reported_at := 5, raw_text := "t1", link := "" },
                    { event_id := "e1", channel := "b", reported_at := 7, raw_text := "t2", link := "" },
                    { event_id := "e2", channel := "z", reported_at := 1, raw_text := "t3", link := "" }] :
              List DbSourceRow), src.event_id = p.1 ∧ src.channel = c))) :=
  ⟨by decide,
   c9_restore_exact
     { events := [{ event_id := "e1", signature := {}, first_seen := 5, last_updated := 9, source_count := 2, status := .pending },
                  { event_id := "e2", signature := {}, first_seen := 1, last_updated := 2, source_count := 1, status := .sent }],
       sources := [{ event_id := "e1", channel := "a", reported_at := 5, raw_text := "t1", link := "" },
                   { event_id := "e1", channel := "b", reported_at := 7, raw_text := "t2", link := "" },
                   { event_id := "e2", channel := "z", reported_at := 1, raw_text := "t3", link := "" }] }
     (by decide)⟩
